import Mathlib

/-!
Shallow embedding of `src/openrouter-provider.ts` (the OpenRouter provider
factory for the AI SDK) together with models of the two helpers it imports
from the external `@ai-sdk/provider-utils` package (`loadApiKey`,
`withoutTrailingSlash`).

Conventions of the embedding:

* JavaScript `undefined` for an optional string is `Option.none`; a present
  string `s` is `some s`.
* A JavaScript object used as a header map is an association list
  `List (String × Option String)` in insertion order; a key can be present
  with value `undefined` (`(k, none)`), which is different from the key
  being absent, exactly as for JavaScript objects.
* The process environment is a function `String → Option String`.
* ECMAScript `new.target` semantics is made explicit: arrow functions do
  not have their own `new.target` binding, they read the one of the closest
  enclosing non-arrow function (here `createOpenRouter`), and arrow
  functions have no construct behaviour, so a `new` call on them fails with
  the engine TypeError before the body runs.  Ordinary function expressions
  (the `provider` callable) are constructible, and when such a constructor
  call returns an object, the `new` expression evaluates to that object.
* Function-typed configuration values (the `fetch` override) are opaque to
  this module and are modelled by an identifier that is only passed
  through.
-/

/-- Compatibility mode of the provider: the source type
`"strict" | "compatible"`. -/
inductive Compatibility where
  | strict
  | compatible
deriving DecidableEq, Repr

/-- Model of the interface `OpenRouterProviderSettings` from the source:
`baseURL`, deprecated `baseUrl`, `apiKey`, `organization`, `project`,
`headers` (custom headers), `compatibility` and the opaque `fetch`
override (modelled by an identifier). -/
structure OpenRouterProviderSettings where
  baseURL : Option String
  baseUrl : Option String
  apiKey : Option String
  organization : Option String
  project : Option String
  headers : List (String × String)
  compatibility : Option Compatibility
  fetch : Option Nat
deriving DecidableEq, Repr

/-- The empty settings object `{}` (every option absent). -/
def emptySettings : OpenRouterProviderSettings :=
  ⟨none, none, none, none, none, [], none, none⟩

/-- Error thrown by the external `loadApiKey` helper when no key can be
resolved. -/
structure LoadAPIKeyError where
  message : String
deriving DecidableEq, Repr

/-- Model of the external helper `loadApiKey` of `@ai-sdk/provider-utils`
(a collaborator per the spec, not part of this repository): return
`apiKey` when it is a present string, otherwise read the environment
variable `environmentVariableName`, otherwise fail with a
`LoadAPIKeyError` whose message starts with the `description` and names
the environment variable.  (The upstream message puts quotation marks
around the parameter name; they are immaterial here and omitted.) -/
def loadApiKey (apiKey : Option String) (environmentVariableName : String)
    (description : String) (env : String → Option String) :
    Except LoadAPIKeyError String :=
  match apiKey with
  | some key => Except.ok key
  | none =>
    match env environmentVariableName with
    | some key => Except.ok key
    | none =>
      Except.error ⟨description ++
        " API key is missing. Pass it using the apiKey parameter or the " ++
        environmentVariableName ++ " environment variable."⟩

/-- Model of the external helper `withoutTrailingSlash` of
`@ai-sdk/provider-utils`: the source body is `url?.replace(/\/$/, "")`,
which removes at most one trailing slash character when the string ends
with one. -/
def withoutTrailingSlash (url : Option String) : Option String :=
  url.map fun s =>
    if s.data.getLast? = some '/' then String.mk s.data.dropLast else s

/-- First-match lookup of a key in a JavaScript-object header map
(object keys are unique, so first match is the match). `some none` means
the key is present with value `undefined`; `none` means the key is
absent. -/
def headerGet (m : List (String × Option String)) (k : String) :
    Option (Option String) :=
  (m.find? fun p => p.1 == k).map fun p => p.2

/-- Whether the header map has the key at all (the JavaScript `in`
operator on objects), regardless of whether its value is `undefined`. -/
def headerHasKey (m : List (String × Option String)) (k : String) : Bool :=
  (m.find? fun p => p.1 == k).isSome

/-- Property assignment on a JavaScript object: overwrite the value in
place when the key exists (object keys are unique, so the first
occurrence is the occurrence), append the pair at the end otherwise. -/
def setHeader : List (String × Option String) → String → Option String →
    List (String × Option String)
  | [], k, v => [(k, v)]
  | p :: m, k, v =>
    if p.1 == k then (k, v) :: m else p :: setHeader m k v

/-- Object-literal spread `{ ...base, ...extras }` where `extras` is a
string-to-string record: each entry of `extras` is assigned in order over
`base`, so later writes win. -/
def spreadHeaders (base : List (String × Option String))
    (extras : List (String × String)) : List (String × Option String) :=
  extras.foldl (fun m p => setHeader m p.1 (some p.2)) base

/-- The `getHeaders` closure of `createOpenRouter`: an object literal with
`Authorization` built from `loadApiKey` (environment variable
`OPENAI_API_KEY`, description `OpenRouter`), the organization and project
headers taken verbatim from the settings (present with value `undefined`
when unset, as for any object literal field), and `options.headers`
spread last.  A throw from `loadApiKey` propagates. -/
def getHeaders (options : OpenRouterProviderSettings)
    (env : String → Option String) :
    Except LoadAPIKeyError (List (String × Option String)) :=
  (loadApiKey options.apiKey "OPENAI_API_KEY" "OpenRouter" env).map fun key =>
    spreadHeaders
      [("Authorization", some ("Bearer " ++ key)),
       ("OpenRouter-Organization", options.organization),
       ("OpenRouter-Project", options.project)]
      options.headers

/-- Chat/completion model settings are external to this source file
(`openrouter-chat-settings` / `openrouter-completion-settings`); at
runtime they are plain objects passed through unchanged (the `as` casts
in the source are compile-time only), so one opaque record type models
both. -/
structure ModelSettings where
  raw : List (String × String)
deriving DecidableEq, Repr

/-- The settings object defaulted to `{}` when the caller passes
`undefined`. -/
def ModelSettings.empty : ModelSettings := ⟨[]⟩

/-- The third constructor argument built by `createChatModel` /
`createCompletionModel`: provider tag, the captured `baseURL` (the `url`
closure appends a path to it, see `LanguageModelConfig.url`), the
settings captured by the `getHeaders` closure (see
`LanguageModelConfig.runHeaders`), the resolved compatibility and the
`fetch` override. -/
structure LanguageModelConfig where
  provider : String
  baseURL : String
  headerSource : OpenRouterProviderSettings
  compatibility : Compatibility
  fetch : Option Nat
deriving DecidableEq, Repr

/-- The `url` closure passed in the config: `({path}) => baseURL + path`. -/
def LanguageModelConfig.url (c : LanguageModelConfig) (path : String) :
    String :=
  c.baseURL ++ path

/-- Running the `headers` closure passed in the config: it is exactly the
`getHeaders` closure over the captured settings. -/
def LanguageModelConfig.runHeaders (c : LanguageModelConfig)
    (env : String → Option String) :
    Except LoadAPIKeyError (List (String × Option String)) :=
  getHeaders c.headerSource env

/-- A constructed model instance: the external constructors
`OpenRouterChatLanguageModel` / `OpenRouterCompletionLanguageModel` are
opaque, so a model handle is the family tag together with the three
constructor arguments. -/
inductive ModelHandle where
  | chat (modelId : String) (settings : ModelSettings)
      (config : LanguageModelConfig)
  | completion (modelId : String) (settings : ModelSettings)
      (config : LanguageModelConfig)
deriving DecidableEq, Repr

/-- Whether the handle is a chat model. -/
def ModelHandle.isChat : ModelHandle → Bool
  | .chat _ _ _ => true
  | .completion _ _ _ => false

/-- Whether the handle is a completion model. -/
def ModelHandle.isCompletion : ModelHandle → Bool
  | .chat _ _ _ => false
  | .completion _ _ _ => true

/-- The model id carried by the handle. -/
def ModelHandle.modelId : ModelHandle → String
  | .chat m _ _ => m
  | .completion m _ _ => m

/-- A JavaScript error surfacing from an invocation: either an `Error`
thrown by the source code (with its message), or the engine TypeError
raised when a `new` call targets an arrow function, which has no
construct behaviour. -/
inductive JsError where
  | thrown (message : String)
  | notAConstructor
deriving DecidableEq, Repr

/-- The message of the `new Error(...)` thrown by the `new.target` guard
in `createLanguageModel`. -/
def newKeywordMessage : String :=
  "The OpenRouter model function cannot be called with the new keyword."

/-- The provider value returned by `createOpenRouter`: the closure state
shared by all of its inner functions.  `outerIsNew` records whether
`createOpenRouter` itself was invoked with `new` - that is the
`new.target` binding which the arrow functions inside it observe
lexically. -/
structure OpenRouterProvider where
  outerIsNew : Bool
  baseURL : String
  compatibility : Compatibility
  options : OpenRouterProviderSettings
deriving DecidableEq, Repr

/-- The inner `createChatModel`: constructs a chat model with the
captured configuration; an `undefined` settings argument defaults to
`{}`. -/
def createChatModel (p : OpenRouterProvider) (modelId : String)
    (settings : Option ModelSettings) : ModelHandle :=
  ModelHandle.chat modelId (settings.getD ModelSettings.empty)
    ⟨"openrouter.chat", p.baseURL, p.options, p.compatibility,
      p.options.fetch⟩

/-- The inner `createCompletionModel`: constructs a completion model with
the captured configuration; an `undefined` settings argument defaults to
`{}`. -/
def createCompletionModel (p : OpenRouterProvider) (modelId : String)
    (settings : Option ModelSettings) : ModelHandle :=
  ModelHandle.completion modelId (settings.getD ModelSettings.empty)
    ⟨"openrouter.completion", p.baseURL, p.options, p.compatibility,
      p.options.fetch⟩

/-- The inner `createLanguageModel`, an arrow function.  `isNewCall` says
whether this very call is a `new` call: arrow functions are not
constructors, so such a call fails with the engine TypeError before the
body runs.  On a plain call the guard in the body reads the
lexically enclosing binding, i.e. whether `createOpenRouter` was invoked
with `new`, and throws the guard error when it is set.  Otherwise the
model id is dispatched: the exact string `openai/gpt-3.5-turbo-instruct`
builds a completion model, every other id builds a chat model. -/
def createLanguageModel (p : OpenRouterProvider) (isNewCall : Bool)
    (modelId : String) (settings : Option ModelSettings) :
    Except JsError ModelHandle :=
  if isNewCall then
    Except.error JsError.notAConstructor
  else if p.outerIsNew then
    Except.error (JsError.thrown newKeywordMessage)
  else if modelId = "openai/gpt-3.5-turbo-instruct" then
    Except.ok (createCompletionModel p modelId settings)
  else
    Except.ok (createChatModel p modelId settings)

/-- Invoking the provider value itself, `const provider = function (...)`.
It is an ordinary function expression, hence constructible; its body
ignores its own `new.target` and plainly calls `createLanguageModel`, and
since the body returns an object, a `new` call evaluates to that same
object.  So the result is that of a plain `createLanguageModel` call
whatever `isNewCall` is. -/
def OpenRouterProvider.call (p : OpenRouterProvider) (isNewCall : Bool)
    (modelId : String) (settings : Option ModelSettings) :
    Except JsError ModelHandle :=
  match isNewCall with
  | _ => createLanguageModel p false modelId settings

/-- The property `provider.languageModel = createLanguageModel`: the very
same function exposed under a name. -/
def OpenRouterProvider.languageModel : OpenRouterProvider → Bool → String →
    Option ModelSettings → Except JsError ModelHandle :=
  createLanguageModel

/-- The property `provider.chat = createChatModel`. -/
def OpenRouterProvider.chat : OpenRouterProvider → String →
    Option ModelSettings → ModelHandle :=
  createChatModel

/-- The property `provider.completion = createCompletionModel`. -/
def OpenRouterProvider.completion : OpenRouterProvider → String →
    Option ModelSettings → ModelHandle :=
  createCompletionModel

/-- The factory `createOpenRouter`: resolves `baseURL` as
`withoutTrailingSlash(options.baseURL ?? options.baseUrl) ?? default`,
resolves compatibility as `options.compatibility ?? "compatible"`, and
returns the provider closure.  `isNew` is the `new.target` of this
invocation of `createOpenRouter` (always `false` for the ordinary calls
the module itself makes); it is captured because the arrow functions
inside observe it lexically. -/
def createOpenRouter (isNew : Bool)
    (options : OpenRouterProviderSettings) : OpenRouterProvider :=
  ⟨isNew,
    (withoutTrailingSlash (options.baseURL.or options.baseUrl)).getD
      "https://openrouter.ai/api/v1",
    options.compatibility.getD Compatibility.compatible,
    options⟩

/-- The exported default instance:
`createOpenRouter({ compatibility: "strict" })`, an ordinary call. -/
def openrouter : OpenRouterProvider :=
  createOpenRouter false
    { emptySettings with compatibility := some Compatibility.strict }

/-- C1: calling the provider as a plain function, or via `languageModel`,
returns a completion model exactly when the model id equals the literal
string `openai/gpt-3.5-turbo-instruct` under exact string equality, and a
chat model for every other model id; both entry points return the same
handle. -/
theorem dispatch_completion_iff_legacy_id
    (opts : OpenRouterProviderSettings) (modelId : String)
    (settings : Option ModelSettings) :
    ∃ m, (createOpenRouter false opts).call false modelId settings
          = Except.ok m ∧
      (createOpenRouter false opts).languageModel false modelId settings
          = Except.ok m ∧
      (m.isCompletion = true ↔ modelId = "openai/gpt-3.5-turbo-instruct") ∧
      (m.isChat = true ↔ modelId ≠ "openai/gpt-3.5-turbo-instruct") := by
  by_cases h : modelId = "openai/gpt-3.5-turbo-instruct"
  · refine ⟨createCompletionModel (createOpenRouter false opts) modelId
        settings, ?_, ?_, ?_, ?_⟩ <;>
      simp [OpenRouterProvider.call, OpenRouterProvider.languageModel,
        createLanguageModel, createOpenRouter, h, createCompletionModel,
        ModelHandle.isCompletion, ModelHandle.isChat]
  · refine ⟨createChatModel (createOpenRouter false opts) modelId
        settings, ?_, ?_, ?_, ?_⟩ <;>
      simp [OpenRouterProvider.call, OpenRouterProvider.languageModel,
        createLanguageModel, createOpenRouter, h, createChatModel,
        ModelHandle.isCompletion, ModelHandle.isChat]

/-- C2: what actually happens on construction-style invocations.  A `new`
call on the provider callable returns a chat model instead of failing:
the `new.target` guard sits in the arrow function `createLanguageModel`,
whose `new.target` is lexically the one of `createOpenRouter` (unset
here), and the callable delegates with a plain call.  A `new` call on
`languageModel` fails, but with the engine TypeError (arrow functions are
not constructors), not the guard error.  The guard error is reachable
only when `createOpenRouter` itself was invoked with `new` and a model is
then requested with a plain call. -/
theorem new_invocation_actual_behavior :
    (createOpenRouter false emptySettings).call true "openai/gpt-4o" none
        = Except.ok (createChatModel (createOpenRouter false emptySettings)
            "openai/gpt-4o" none) ∧
    (createOpenRouter false emptySettings).languageModel true
        "openai/gpt-4o" none = Except.error JsError.notAConstructor ∧
    (createOpenRouter true emptySettings).languageModel false
        "openai/gpt-4o" none
        = Except.error (JsError.thrown newKeywordMessage) :=
  ⟨rfl, rfl, rfl⟩

/-- C6: `chat` always constructs a chat model carrying the given model id
and `completion` always constructs a completion model carrying the given
model id, for every model id including the legacy completion id, with no
branching on the id. -/
theorem chat_completion_fixed_family
    (opts : OpenRouterProviderSettings) (modelId : String)
    (settings : Option ModelSettings) :
    ((createOpenRouter false opts).chat modelId settings).isChat = true ∧
    ((createOpenRouter false opts).completion modelId
        settings).isCompletion = true ∧
    ((createOpenRouter false opts).chat modelId settings).modelId
        = modelId ∧
    ((createOpenRouter false opts).completion modelId settings).modelId
        = modelId ∧
    ((createOpenRouter false opts).chat "openai/gpt-3.5-turbo-instruct"
        settings).isChat = true ∧
    ((createOpenRouter false opts).completion
        "openai/gpt-3.5-turbo-instruct" settings).isCompletion = true :=
  ⟨rfl, rfl, rfl, rfl, rfl, rfl⟩

/-- C8: the callable form and the `languageModel` named operation perform
identical dispatch - the named operation is the dispatch function itself
(`provider.languageModel = createLanguageModel`), the callable is a
wrapper whose plain call to it makes every invocation, construction-style
or not, return the same handle as a plain `languageModel` call. -/
theorem callable_and_languageModel_same_dispatch
    (opts : OpenRouterProviderSettings) (isNewCall : Bool)
    (modelId : String) (settings : Option ModelSettings) :
    (createOpenRouter false opts).call isNewCall modelId settings
        = (createOpenRouter false opts).languageModel false modelId
            settings ∧
    OpenRouterProvider.languageModel = createLanguageModel :=
  ⟨rfl, rfl⟩

/-- C9: the resolved compatibility equals the supplied value when the
setting is present, defaults to `compatible` when absent, and the
exported default instance `openrouter` resolves it to `strict`. -/
theorem compatibility_resolution :
    (∀ opts : OpenRouterProviderSettings, ∀ c : Compatibility,
        opts.compatibility = some c →
          (createOpenRouter false opts).compatibility = c) ∧
    (∀ opts : OpenRouterProviderSettings, opts.compatibility = none →
        (createOpenRouter false opts).compatibility
          = Compatibility.compatible) ∧
    openrouter.compatibility = Compatibility.strict := by
  refine ⟨?_, ?_, rfl⟩
  · intro opts c h
    simp [createOpenRouter, h]
  · intro opts h
    simp [createOpenRouter, h]

/-- Witness for C9 at concrete inputs: a supplied `strict` is kept and an
absent setting defaults to `compatible`. -/
theorem compatibility_resolution_witness :
    (createOpenRouter false
        { emptySettings with
            compatibility := some Compatibility.strict }).compatibility
      = Compatibility.strict ∧
    (createOpenRouter false emptySettings).compatibility
      = Compatibility.compatible :=
  ⟨compatibility_resolution.1 _ _ rfl, compatibility_resolution.2.1 _ rfl⟩

/-- Unfolding step of the object spread: the first extra entry is
assigned first. -/
theorem spreadHeaders_cons (base : List (String × Option String))
    (e : String × String) (rest : List (String × String)) :
    spreadHeaders base (e :: rest)
      = spreadHeaders (setHeader base e.1 (some e.2)) rest := rfl

/-- Looking the assigned key up after an assignment yields the assigned
value. -/
theorem headerGet_setHeader_self (m : List (String × Option String))
    (k : String) (v : Option String) :
    headerGet (setHeader m k v) k = some v := by
  induction m with
  | nil => simp [setHeader, headerGet]
  | cons p m ih =>
    by_cases hp : p.1 = k
    · simp [setHeader, headerGet, hp]
    · simp only [setHeader, beq_eq_false_iff_ne.mpr hp, if_false]
      simpa [headerGet, List.find?, beq_eq_false_iff_ne.mpr hp] using ih

/-- An assignment to one key leaves lookups of every other key
unchanged. -/
theorem headerGet_setHeader_ne (m : List (String × Option String))
    (k k' : String) (v : Option String) (h : k' ≠ k) :
    headerGet (setHeader m k' v) k = headerGet m k := by
  induction m with
  | nil => simp [setHeader, headerGet, List.find?, beq_eq_false_iff_ne.mpr h]
  | cons p m ih =>
    by_cases hp : p.1 = k'
    · simp [setHeader, headerGet, List.find?, hp,
        beq_eq_false_iff_ne.mpr h]
    · simp only [setHeader, beq_eq_false_iff_ne.mpr hp, if_false]
      by_cases hpk : p.1 = k
      · simp [headerGet, List.find?, hpk]
      · simpa [headerGet, List.find?, beq_eq_false_iff_ne.mpr hpk] using ih

/-- Spreading extra headers none of which carry the key leaves its lookup
unchanged. -/
theorem headerGet_spread_of_not_mem :
    ∀ (extras : List (String × String))
      (base : List (String × Option String)) (k : String),
      (∀ p ∈ extras, p.1 ≠ k) →
      headerGet (spreadHeaders base extras) k = headerGet base k := by
  intro extras
  induction extras with
  | nil => intro base k _; rfl
  | cons e rest ih =>
    intro base k h
    rw [spreadHeaders_cons,
      ih _ k fun p hp => h p (List.mem_cons_of_mem _ hp),
      headerGet_setHeader_ne _ _ _ _ (h e (List.mem_cons_self _ _))]

/-- Spreading extra headers that carry the key (keys of a record are
unique) makes its lookup the value of that extra entry. -/
theorem headerGet_spread_of_mem :
    ∀ (extras : List (String × String))
      (base : List (String × Option String)) (k v : String),
      (extras.map Prod.fst).Nodup → (k, v) ∈ extras →
      headerGet (spreadHeaders base extras) k = some (some v) := by
  intro extras
  induction extras with
  | nil => intro base k v _ hm; cases hm
  | cons e rest ih =>
    intro base k v hnd hm
    have hnd' : e.1 ∉ rest.map Prod.fst ∧ (rest.map Prod.fst).Nodup := by
      rw [List.map_cons, List.nodup_cons] at hnd
      exact hnd
    rcases List.mem_cons.mp hm with he | hrest
    · have hek : e.1 = k := by rw [← he]
      have hk : k ∉ rest.map Prod.fst := hek ▸ hnd'.1
      rw [spreadHeaders_cons,
        headerGet_spread_of_not_mem rest _ k fun p hp hpk =>
          hk (hpk ▸ List.mem_map_of_mem Prod.fst hp)]
      rw [← he]
      exact headerGet_setHeader_self _ _ _
    · exact ih _ k v hnd'.2 hrest

/-- C3: when `apiKey` is supplied the Authorization header is Bearer plus
that key; otherwise the key is read from the environment variable
`OPENAI_API_KEY`; when neither is available header computation fails with
the missing-credential error whose message names the provider
(OpenRouter).  The custom headers are assumed not to override the
Authorization key, which is the separate override rule of C7. -/
theorem authorization_header_resolution
    (opts : OpenRouterProviderSettings) (env : String → Option String)
    (hno : ∀ p ∈ opts.headers, p.1 ≠ "Authorization") :
    (∀ k, opts.apiKey = some k →
        ∃ hs, getHeaders opts env = Except.ok hs ∧
          headerGet hs "Authorization" = some (some ("Bearer " ++ k))) ∧
    (opts.apiKey = none → ∀ k, env "OPENAI_API_KEY" = some k →
        ∃ hs, getHeaders opts env = Except.ok hs ∧
          headerGet hs "Authorization" = some (some ("Bearer " ++ k))) ∧
    (opts.apiKey = none → env "OPENAI_API_KEY" = none →
        getHeaders opts env = Except.error
          ⟨"OpenRouter API key is missing. Pass it using the apiKey " ++
            "parameter or the OPENAI_API_KEY environment variable."⟩) := by
  refine ⟨?_, ?_, ?_⟩
  · intro k hk
    refine ⟨spreadHeaders
        [("Authorization", some ("Bearer " ++ k)),
         ("OpenRouter-Organization", opts.organization),
         ("OpenRouter-Project", opts.project)] opts.headers, ?_, ?_⟩
    · simp [getHeaders, loadApiKey, hk, Except.map]
    · rw [headerGet_spread_of_not_mem _ _ _ hno]
      rfl
  · intro hk k he
    refine ⟨spreadHeaders
        [("Authorization", some ("Bearer " ++ k)),
         ("OpenRouter-Organization", opts.organization),
         ("OpenRouter-Project", opts.project)] opts.headers, ?_, ?_⟩
    · simp [getHeaders, loadApiKey, hk, he, Except.map]
    · rw [headerGet_spread_of_not_mem _ _ _ hno]
      rfl
  · intro hk he
    simp only [getHeaders, loadApiKey, hk, he, Except.map]
    rfl

/-- Witness for C3 at concrete inputs: a supplied key wins, an
environment key is used when no key is supplied, and with neither source
the computation fails with the message naming OpenRouter. -/
theorem authorization_header_resolution_witness :
    (∃ hs, getHeaders { emptySettings with apiKey := some "k0" }
          (fun _ => none) = Except.ok hs ∧
        headerGet hs "Authorization" = some (some ("Bearer " ++ "k0"))) ∧
    (∃ hs, getHeaders emptySettings
          (fun v => if v = "OPENAI_API_KEY" then some "k1" else none)
          = Except.ok hs ∧
        headerGet hs "Authorization" = some (some ("Bearer " ++ "k1"))) ∧
    getHeaders emptySettings (fun _ => none) = Except.error
      ⟨"OpenRouter API key is missing. Pass it using the apiKey " ++
        "parameter or the OPENAI_API_KEY environment variable."⟩ :=
  ⟨(authorization_header_resolution _ _
      (by intro p hp; simp [emptySettings] at hp)).1 "k0" rfl,
   (authorization_header_resolution _ _
      (by intro p hp; simp [emptySettings] at hp)).2.1 rfl "k1" (by simp),
   (authorization_header_resolution _ _
      (by intro p hp; simp [emptySettings] at hp)).2.2 rfl rfl⟩

/-- C4 counterexample: for apiKey k1, organization org1 and no project,
the computed header map does contain the `OpenRouter-Project` key - it is
present with value `undefined` (an object-literal field is always
present), contradicting the claim that the mapping contains no project
key at all. -/
theorem project_key_present_counterexample :
    getHeaders { emptySettings with apiKey := some "k1", organization := some "org1" } (fun _ => none)
      = Except.ok [("Authorization", some "Bearer k1"),
          ("OpenRouter-Organization", some "org1"),
          ("OpenRouter-Project", none)] ∧
    (getHeaders { emptySettings with apiKey := some "k1", organization := some "org1" } (fun _ => none)).map
        (fun hs => headerHasKey hs "OpenRouter-Project")
      = Except.ok true := by
  exact ⟨rfl, rfl⟩

/-- C4 amended: with apiKey k1, organization org1 and no project, the
computed map has exactly three entries - Authorization Bearer k1, the
organization header org1, and the project key present but valueless
(value `undefined`), rather than absent. -/
theorem headers_k1_org1_amended :
    ∃ hs, getHeaders { emptySettings with apiKey := some "k1", organization := some "org1" } (fun _ => none) = Except.ok hs ∧
      headerGet hs "Authorization" = some (some "Bearer k1") ∧
      headerGet hs "OpenRouter-Organization" = some (some "org1") ∧
      headerHasKey hs "OpenRouter-Project" = true ∧
      headerGet hs "OpenRouter-Project" = some none ∧
      hs.length = 3 :=
  ⟨[("Authorization", some "Bearer k1"),
    ("OpenRouter-Organization", some "org1"),
    ("OpenRouter-Project", none)], rfl, rfl, rfl, rfl, rfl, rfl⟩

/-- C7: every entry of the custom headers record overrides the computed
header of the same name, because the record is spread last over the
object literal. -/
theorem extraHeaders_override_precedence
    (opts : OpenRouterProviderSettings) (env : String → Option String)
    (k v : String) (hs : List (String × Option String))
    (hnd : (opts.headers.map Prod.fst).Nodup)
    (hmem : (k, v) ∈ opts.headers)
    (hok : getHeaders opts env = Except.ok hs) :
    headerGet hs k = some (some v) := by
  unfold getHeaders at hok
  cases hl : loadApiKey opts.apiKey "OPENAI_API_KEY" "OpenRouter" env with
  | error e => rw [hl] at hok; cases hok
  | ok key =>
    rw [hl] at hok
    simp only [Except.map] at hok
    cases hok
    exact headerGet_spread_of_mem _ _ k v hnd hmem

/-- Witness for C7: a custom Authorization header in the extra headers
wins over the computed Bearer header. -/
theorem extraHeaders_override_precedence_witness :
    headerGet [("Authorization", some "custom"),
      ("OpenRouter-Organization", none), ("OpenRouter-Project", none)]
      "Authorization" = some (some "custom") :=
  extraHeaders_override_precedence
    { emptySettings with apiKey := some "k", headers := [("Authorization", "custom")] }
    (fun _ => none) "Authorization" "custom" _
    (by simp) (by simp) rfl

/-- C10: with no supplied key, header computation reads exactly the
environment variable `OPENAI_API_KEY` (the result depends on the
environment only through that name, and a present value is used as the
key), and on failure the diagnostic message carries the description
`OpenRouter`. -/
theorem env_var_name_and_description
    (opts : OpenRouterProviderSettings) (env : String → Option String)
    (h : opts.apiKey = none) :
    (∀ env2 : String → Option String,
        env "OPENAI_API_KEY" = env2 "OPENAI_API_KEY" →
        getHeaders opts env = getHeaders opts env2) ∧
    (∀ k, env "OPENAI_API_KEY" = some k →
        getHeaders opts env = Except.ok (spreadHeaders
          [("Authorization", some ("Bearer " ++ k)),
           ("OpenRouter-Organization", opts.organization),
           ("OpenRouter-Project", opts.project)] opts.headers)) ∧
    (env "OPENAI_API_KEY" = none →
        getHeaders opts env = Except.error
          ⟨"OpenRouter API key is missing. Pass it using the apiKey " ++
            "parameter or the OPENAI_API_KEY environment variable."⟩) := by
  refine ⟨?_, ?_, ?_⟩
  · intro env2 he
    simp only [getHeaders, loadApiKey, h, he]
  · intro k hk
    simp [getHeaders, loadApiKey, h, hk, Except.map]
  · intro hk
    simp only [getHeaders, loadApiKey, h, hk, Except.map]
    rfl

/-- Witness for C10: an environment that only sets an OpenRouter-named
variable is not consulted (the computation fails, naming OpenRouter and
OPENAI_API_KEY in the message), while one that sets `OPENAI_API_KEY`
supplies the key. -/
theorem env_var_name_and_description_witness :
    getHeaders emptySettings
        (fun name => if name = "OPENROUTER_API_KEY" then some "sk-or"
          else none)
      = Except.error
          ⟨"OpenRouter API key is missing. Pass it using the apiKey " ++
            "parameter or the OPENAI_API_KEY environment variable."⟩ ∧
    getHeaders emptySettings
        (fun name => if name = "OPENAI_API_KEY" then some "sk-oa"
          else none)
      = Except.ok [("Authorization", some ("Bearer " ++ "sk-oa")),
          ("OpenRouter-Organization", none),
          ("OpenRouter-Project", none)] :=
  ⟨(env_var_name_and_description emptySettings _ rfl).2.2 (by simp),
   (env_var_name_and_description emptySettings _ rfl).2.1 "sk-oa" (by simp)⟩

/-- Appending strings concatenates their character data. -/
theorem string_data_append (s t : String) :
    (s ++ t).data = s.data ++ t.data := by
  cases s
  cases t
  rfl

/-- Rebuilding a string from its character data gives the string back. -/
theorem string_mk_data (s : String) : String.mk s.data = s := by
  cases s
  rfl

/-- The trailing-slash helper removes a final slash: on `v ++ "/"` it
returns `v` (whatever `v` ends with). -/
theorem withoutTrailingSlash_concat (v : String) :
    withoutTrailingSlash (some (v ++ "/")) = some v := by
  have hd : (v ++ "/").data = v.data ++ ['/'] := by
    rw [string_data_append]
  simp [withoutTrailingSlash, hd, List.getLast?_concat,
    List.dropLast_concat, string_mk_data]

/-- The trailing-slash helper leaves a string not ending in a slash
unchanged. -/
theorem withoutTrailingSlash_of_no_slash (v : String)
    (h : v.data.getLast? ≠ some '/') :
    withoutTrailingSlash (some v) = some v := by
  simp [withoutTrailingSlash, h]

/-- C5 counterexample: a supplied base URL ending in two slashes loses
only one of them - the resolved endpoint still ends in a slash - and the
stripping helper is not idempotent on it (a second application changes
the result again). -/
theorem trailing_slashes_counterexample :
    (createOpenRouter false
        { emptySettings with baseURL := some "https://x.test/v1//" }).baseURL
      = "https://x.test/v1/" ∧
    ("https://x.test/v1/" : String).data.getLast? = some '/' ∧
    withoutTrailingSlash (withoutTrailingSlash (some "https://x.test/v1//"))
      ≠ withoutTrailingSlash (some "https://x.test/v1//") := by
  refine ⟨by decide, by decide, by decide⟩

/-- C5 amended: `baseURL` is preferred, the deprecated `baseUrl` alias is
used only when it is absent, the fixed default (which has no trailing
slash) is used when both are absent, and exactly one trailing slash is
stripped from a supplied value: a value `v ++ "/"` resolves to `v`, and a
value not ending in a slash resolves to itself.  Stripping is therefore
idempotent only on values with at most one trailing slash, not in
general. -/
theorem baseURL_resolution_amended (opts : OpenRouterProviderSettings) :
    (opts.baseURL = none → opts.baseUrl = none →
        (createOpenRouter false opts).baseURL
          = "https://openrouter.ai/api/v1") ∧
    (∀ v, opts.baseURL = some (v ++ "/") →
        (createOpenRouter false opts).baseURL = v) ∧
    (∀ v, opts.baseURL = some v → v.data.getLast? ≠ some '/' →
        (createOpenRouter false opts).baseURL = v) ∧
    (∀ v, opts.baseURL = none → opts.baseUrl = some (v ++ "/") →
        (createOpenRouter false opts).baseURL = v) ∧
    (∀ v, opts.baseURL = none → opts.baseUrl = some v →
        v.data.getLast? ≠ some '/' →
        (createOpenRouter false opts).baseURL = v) ∧
    ("https://openrouter.ai/api/v1" : String).data.getLast? ≠ some '/' := by
  refine ⟨?_, ?_, ?_, ?_, ?_, by decide⟩
  · intro h1 h2
    show (withoutTrailingSlash (opts.baseURL.or opts.baseUrl)).getD
      "https://openrouter.ai/api/v1" = "https://openrouter.ai/api/v1"
    rw [h1, h2]
    rfl
  · intro v hv
    show (withoutTrailingSlash (opts.baseURL.or opts.baseUrl)).getD
      "https://openrouter.ai/api/v1" = v
    rw [hv, show Option.or (some (v ++ "/")) opts.baseUrl
        = some (v ++ "/") from rfl, withoutTrailingSlash_concat]
    rfl
  · intro v hv h
    show (withoutTrailingSlash (opts.baseURL.or opts.baseUrl)).getD
      "https://openrouter.ai/api/v1" = v
    rw [hv, show Option.or (some v) opts.baseUrl = some v from rfl,
      withoutTrailingSlash_of_no_slash v h]
    rfl
  · intro v h1 hv
    show (withoutTrailingSlash (opts.baseURL.or opts.baseUrl)).getD
      "https://openrouter.ai/api/v1" = v
    rw [h1, hv, show Option.or none (some (v ++ "/"))
        = some (v ++ "/") from rfl, withoutTrailingSlash_concat]
    rfl
  · intro v h1 hv h
    show (withoutTrailingSlash (opts.baseURL.or opts.baseUrl)).getD
      "https://openrouter.ai/api/v1" = v
    rw [h1, hv, show Option.or none (some v) = some v from rfl,
      withoutTrailingSlash_of_no_slash v h]
    rfl

/-- Witness for the amended C5 at concrete inputs: a single trailing
slash is stripped from `baseURL`, the default endpoint is used when
neither option is set, and the deprecated `baseUrl` alias is used (with
its single trailing slash stripped) when `baseURL` is absent. -/
theorem baseURL_resolution_amended_witness :
    (createOpenRouter false
        { emptySettings with baseURL := some "https://x.test/v1/" }).baseURL
      = "https://x.test/v1" ∧
    (createOpenRouter false emptySettings).baseURL
      = "https://openrouter.ai/api/v1" ∧
    (createOpenRouter false
        { emptySettings with baseUrl := some "https://y.test/" }).baseURL
      = "https://y.test" :=
  ⟨(baseURL_resolution_amended _).2.1 "https://x.test/v1" (by decide),
   (baseURL_resolution_amended _).1 rfl rfl,
   (baseURL_resolution_amended _).2.2.2.1 "https://y.test" rfl (by decide)⟩
